import Mathlib

/-!
Verification of the resource-ID parser/formatter for Verifier Workspace IDs
and of the Monitor Activity Log Alert expand/flatten/delete helpers.

Go strings are modelled as `List Char`; Go `nil`-able pointers as `Option`;
Go errors as explicit error values (`Except` / `Option`).
-/

deriving instance DecidableEq for Except

/-- Go strings are modelled as lists of characters. -/
abbrev Str := List Char

/-- ASCII lower-casing of one character (models the case folding used by
`strings.EqualFold` / `strings.ToLower` on the ASCII literals that occur here). -/
def lowerChar (c : Char) : Char :=
  if 'A' ≤ c ∧ c ≤ 'Z' then Char.ofNat (c.toNat + 32) else c

/-- Lower-casing of a whole string. -/
def lowerStr (s : Str) : Str := s.map lowerChar

/-- Splitting a string at every slash, as Go `strings.Split(s, "/")`:
`n` slashes produce `n+1` components. -/
def splitOnSlash : Str → List Str
  | [] => [[]]
  | c :: rest =>
    if c = '/' then [] :: splitOnSlash rest
    else
      match splitOnSlash rest with
      | [] => [[c]]
      | t :: ts => (c :: t) :: ts

/-- Joining components with a slash separator (the inverse shape of
`splitOnSlash`; with a leading empty component it renders the
slash-led format string used by `VerifierWorkspaceId.ID`). -/
def joinComponents : List Str → Str
  | [] => []
  | [c] => c
  | c :: cs => c ++ '/' :: joinComponents cs

/-- The kinds of segments of a resource-ID, from the
`resourceids` segment constructors used in `Segments()`. -/
inductive SegmentType
  | staticLiteral
  | subscriptionIdKind
  | resourceGroupKind
  | resourceProviderKind
  | userSpecifiedKind
deriving DecidableEq

/-- One segment of a resource-ID grammar: its kind, its lookup key, and the
fixed literal (for static / resource-provider segments; for dynamic segments
this slot holds the example value, which the parser never reads). -/
structure Segment where
  segmentType : SegmentType
  key : String
  fixedValue : Str
deriving DecidableEq

/-- Mirrors `resourceids.StaticSegment(key, fixedValue, exampleValue)`. -/
def StaticSegment (key fixedValue _exampleValue : String) : Segment :=
  ⟨.staticLiteral, key, fixedValue.toList⟩

/-- Mirrors `resourceids.SubscriptionIdSegment(key, exampleValue)`. -/
def SubscriptionIdSegment (key exampleValue : String) : Segment :=
  ⟨.subscriptionIdKind, key, exampleValue.toList⟩

/-- Mirrors `resourceids.ResourceGroupSegment(key, exampleValue)`. -/
def ResourceGroupSegment (key exampleValue : String) : Segment :=
  ⟨.resourceGroupKind, key, exampleValue.toList⟩

/-- Mirrors `resourceids.ResourceProviderSegment(key, fixedValue, exampleValue)`. -/
def ResourceProviderSegment (key fixedValue _exampleValue : String) : Segment :=
  ⟨.resourceProviderKind, key, fixedValue.toList⟩

/-- Mirrors `resourceids.UserSpecifiedSegment(key, exampleValue)`. -/
def UserSpecifiedSegment (key exampleValue : String) : Segment :=
  ⟨.userSpecifiedKind, key, exampleValue.toList⟩

/-- `VerifierWorkspaceId` is a struct representing the Resource ID for a
Verifier Workspace (four string fields, as in the source). -/
structure VerifierWorkspaceId where
  SubscriptionId : Str
  ResourceGroupName : Str
  NetworkManagerName : Str
  VerifierWorkspaceName : Str
deriving DecidableEq

/-- The ordered segment list of a Verifier Workspace ID, transcribed from
`VerifierWorkspaceId.Segments()`. -/
def verifierWorkspaceSegments : List Segment :=
  [ StaticSegment "staticSubscriptions" "subscriptions" "subscriptions",
    SubscriptionIdSegment "subscriptionId" "12345678-1234-9876-4563-123456789012",
    StaticSegment "staticResourceGroups" "resourceGroups" "resourceGroups",
    ResourceGroupSegment "resourceGroupName" "example-resource-group",
    StaticSegment "staticProviders" "providers" "providers",
    ResourceProviderSegment "staticMicrosoftNetwork" "Microsoft.Network" "Microsoft.Network",
    StaticSegment "staticNetworkManagers" "networkManagers" "networkManagers",
    UserSpecifiedSegment "networkManagerName" "networkManagerName",
    StaticSegment "staticVerifierWorkspaces" "verifierWorkspaces" "verifierWorkspaces",
    UserSpecifiedSegment "verifierWorkspaceName" "verifierWorkspaceName" ]

/-- Mirrors the `Segments()` method (the receiver is unused by the source body). -/
def VerifierWorkspaceId.Segments (_id : VerifierWorkspaceId) : List Segment :=
  verifierWorkspaceSegments

/-- The error categories the parser and `FromParseResult` can report. -/
inductive ParseError
  | wrongNumberOfComponents
  | segmentMismatch (expected actual : Str)
  | segmentNotSpecified (key : String)
deriving DecidableEq

/-- Mirrors `resourceids.ParseResult`: the mapping from segment key to the
matched string (`Parsed` field). -/
structure ParseResult where
  parsed : List (String × Str)
deriving DecidableEq

/-- Modelled from the spec: the static-literal comparison of the generic
parser in `go-azure-helpers/resourcemanager/resourceids` (not vendored under
src/) — a literal is compared exactly, or case-insensitively when the
insensitive flag is set. -/
def matchStatic (insensitively : Bool) (lit c : Str) : Bool :=
  if insensitively then decide (lowerStr lit = lowerStr c) else decide (lit = c)

/-- Modelled from the spec: the segment walk of `resourceids.Parser.Parse`
(not vendored under src/). Components are matched positionally: a static
segment must equal its literal (per the flag; the resource-provider literal
is matched case-insensitively regardless of the flag), a dynamic segment
captures any non-empty component under its key and fails with a
"segment not specified" error on an empty or absent component; a wrong
number of path components is malformed input. -/
def parseSegments (insensitively : Bool) : List Segment → List Str → Except ParseError (List (String × Str))
  | [], [] => .ok []
  | [], _ :: _ => .error .wrongNumberOfComponents
  | seg :: _, [] =>
    match seg.segmentType with
    | .staticLiteral | .resourceProviderKind => .error .wrongNumberOfComponents
    | _ => .error (.segmentNotSpecified seg.key)
  | seg :: rest, c :: cs =>
    match seg.segmentType with
    | .staticLiteral =>
      if matchStatic insensitively seg.fixedValue c then parseSegments insensitively rest cs
      else .error (.segmentMismatch seg.fixedValue c)
    | .resourceProviderKind =>
      if matchStatic true seg.fixedValue c then parseSegments insensitively rest cs
      else .error (.segmentMismatch seg.fixedValue c)
    | _ =>
      if c = [] then .error (.segmentNotSpecified seg.key)
      else (parseSegments insensitively rest cs).map (fun ps => (seg.key, c) :: ps)

/-- Modelled from the spec: `resourceids.Parser.Parse` (not vendored under
src/) — the input is split into slash-delimited path components (a
well-formed resource ID starts with a slash, so the first component is
empty) and the remaining components are matched against the segment list. -/
def Parse (segments : List Segment) (input : Str) (insensitively : Bool) : Except ParseError ParseResult :=
  match splitOnSlash input with
  | [] :: components => (parseSegments insensitively segments components).map ParseResult.mk
  | _ => .error .wrongNumberOfComponents

/-- Mirrors `(*VerifierWorkspaceId).FromParseResult`: each of the four
non-static keys is looked up in turn; a missing key yields a
"segment not specified" error for that key (the Go method mutates its
receiver and the caller discards it on error, so the functional reading
returns either an error or a fully populated struct). -/
def VerifierWorkspaceId.FromParseResult (input : ParseResult) : Except ParseError VerifierWorkspaceId :=
  match input.parsed.lookup "subscriptionId" with
  | none => .error (.segmentNotSpecified "subscriptionId")
  | some sub =>
    match input.parsed.lookup "resourceGroupName" with
    | none => .error (.segmentNotSpecified "resourceGroupName")
    | some rg =>
      match input.parsed.lookup "networkManagerName" with
      | none => .error (.segmentNotSpecified "networkManagerName")
      | some nm =>
        match input.parsed.lookup "verifierWorkspaceName" with
        | none => .error (.segmentNotSpecified "verifierWorkspaceName")
        | some ws => .ok ⟨sub, rg, nm, ws⟩

/-- Mirrors `ParseVerifierWorkspaceID`: parse with the case-sensitive flag
(`false`), then populate the struct from the parse result. -/
def ParseVerifierWorkspaceID (input : Str) : Except ParseError VerifierWorkspaceId :=
  (Parse verifierWorkspaceSegments input false).bind VerifierWorkspaceId.FromParseResult

/-- Mirrors `ParseVerifierWorkspaceIDInsensitively`: parse with the
case-insensitive flag (`true`), then populate the struct. -/
def ParseVerifierWorkspaceIDInsensitively (input : Str) : Except ParseError VerifierWorkspaceId :=
  (Parse verifierWorkspaceSegments input true).bind VerifierWorkspaceId.FromParseResult

/-- Mirrors `VerifierWorkspaceId.ID()`: renders the format string
`/subscriptions/%s/resourceGroups/%s/providers/Microsoft.Network/networkManagers/%s/verifierWorkspaces/%s`
(the leading empty component makes `joinComponents` produce the leading slash). -/
def VerifierWorkspaceId.ID (id : VerifierWorkspaceId) : Str :=
  joinComponents
    [ [], "subscriptions".toList, id.SubscriptionId,
      "resourceGroups".toList, id.ResourceGroupName,
      "providers".toList, "Microsoft.Network".toList,
      "networkManagers".toList, id.NetworkManagerName,
      "verifierWorkspaces".toList, id.VerifierWorkspaceName ]

/-- A Go `interface{}` argument as received by the validation adapter:
either a string or some non-string value. -/
inductive GoValue
  | str (s : Str)
  | nonString

/-- The errors the validation adapter can collect. -/
inductive ValidationError
  | notAString (key : String)
  | parseFailed (e : ParseError)
deriving DecidableEq

/-- Mirrors `ValidateVerifierWorkspaceID`: returns `(warnings, errors)`;
a non-string input or a parse failure appends one error, success appends
nothing, and the warnings slice is never appended to. -/
def ValidateVerifierWorkspaceID (input : GoValue) (key : String) : List String × List ValidationError :=
  match input with
  | .nonString => ([], [.notAString key])
  | .str v =>
    match ParseVerifierWorkspaceID v with
    | .error e => ([], [.parseFailed e])
    | .ok _ => ([], [])

/-- The concrete example identifier string from the segment examples. -/
def exampleIdString : Str :=
  "/subscriptions/12345678-1234-9876-4563-123456789012/resourceGroups/example-resource-group/providers/Microsoft.Network/networkManagers/mgr1/verifierWorkspaces/ws1".toList

/-- The struct the example identifier string should parse to. -/
def exampleId : VerifierWorkspaceId :=
  ⟨"12345678-1234-9876-4563-123456789012".toList, "example-resource-group".toList,
    "mgr1".toList, "ws1".toList⟩

/-- The four non-static segment keys of a Verifier Workspace ID. -/
def verifierWorkspaceKeys : List String :=
  ["subscriptionId", "resourceGroupName", "networkManagerName", "verifierWorkspaceName"]

/-- One alert condition: mirrors the SDK condition structs used by expand
(`insights.AlertRuleAnyOfOrLeafCondition`) and flatten
(the element type of `ActivityLogAlertAllOfCondition.AllOf`); both carry
optional `Field` and `Equals` string pointers. -/
structure Condition where
  field : Option String
  equals : Option String
deriving DecidableEq

/-- Mirrors `insights.AlertRuleAllOfCondition` (and the structurally identical
`insights.ActivityLogAlertAllOfCondition` consumed by flatten): an optional
pointer to the condition slice. -/
structure AlertRuleAllOfCondition where
  allOf : Option (List Condition)
deriving DecidableEq

/-- The criteria block of the configuration schema: one string per declared
criteria field (a field absent from the configuration map is its zero value,
the empty string). -/
structure ActivityLogAlertCriteria where
  category : String
  operation_name : String
  caller : String
  level : String
  resource_provider : String
  resource_type : String
  resource_group : String
  resource_id : String
  status : String
  sub_status : String
  recommendation_type : String
  recommendation_category : String
  recommendation_impact : String
deriving DecidableEq

/-- One guarded append of `expandMonitorActivityLogAlertCriteria`: a condition
is emitted only when the field value is non-empty. -/
def emitCondition (name value : String) : List Condition :=
  if value = "" then [] else [⟨some name, some value⟩]

/-- Mirrors `expandMonitorActivityLogAlertCriteria`: the Go code indexes
`input[0]` unconditionally (a panic on an empty slice, modelled as `none`)
and then appends one condition per non-empty criteria field, in source order. -/
def expandMonitorActivityLogAlertCriteria :
    List ActivityLogAlertCriteria → Option AlertRuleAllOfCondition
  | [] => none
  | v :: _ =>
    some ⟨some (
      emitCondition "category" v.category ++
      emitCondition "operationName" v.operation_name ++
      emitCondition "caller" v.caller ++
      emitCondition "level" v.level ++
      emitCondition "resourceProvider" v.resource_provider ++
      emitCondition "resourceType" v.resource_type ++
      emitCondition "resourceGroup" v.resource_group ++
      emitCondition "resourceId" v.resource_id ++
      emitCondition "status" v.status ++
      emitCondition "subStatus" v.sub_status ++
      emitCondition "properties.recommendationType" v.recommendation_type ++
      emitCondition "properties.recommendationCategory" v.recommendation_category ++
      emitCondition "properties.recommendationImpact" v.recommendation_impact)⟩

/-- The criteria fields with their API field names, in the order the expand
function examines them. -/
def criteriaPairs (v : ActivityLogAlertCriteria) : List (String × String) :=
  [ ("category", v.category), ("operationName", v.operation_name),
    ("caller", v.caller), ("level", v.level),
    ("resourceProvider", v.resource_provider), ("resourceType", v.resource_type),
    ("resourceGroup", v.resource_group), ("resourceId", v.resource_id),
    ("status", v.status), ("subStatus", v.sub_status),
    ("properties.recommendationType", v.recommendation_type),
    ("properties.recommendationCategory", v.recommendation_category),
    ("properties.recommendationImpact", v.recommendation_impact) ]

/-- ASCII lower-casing of a whole Go string (`strings.ToLower` on the ASCII
field names compared here). -/
def toLowerString (s : String) : String := ⟨s.data.map lowerChar⟩

/-- Assignment into a Go `map[string]interface{}`, modelled as an association
list where assigning to an existing key overwrites it in place. -/
def mapInsert : List (String × String) → String → String → List (String × String)
  | [], k, v => [(k, v)]
  | (k0, v0) :: rest, k, v =>
    if k0 = k then (k, v) :: rest else (k0, v0) :: mapInsert rest k v

/-- One iteration of the flatten loop: a condition with both `Field` and
`Equals` set is dispatched on the lower-cased field name (the switch in the
source, in source order); the `caller`/`category`/`level`/`status` arm keys
the result by the original `*condition.Field`, the other arms by a fixed
snake_case key; unrecognized fields are skipped. -/
def flattenStep (result : List (String × String)) (c : Condition) : List (String × String) :=
  match c.field, c.equals with
  | some f, some v =>
    if toLowerString f = "operationname" then mapInsert result "operation_name" v
    else if toLowerString f = "resourceprovider" then mapInsert result "resource_provider" v
    else if toLowerString f = "resourcetype" then mapInsert result "resource_type" v
    else if toLowerString f = "resourcegroup" then mapInsert result "resource_group" v
    else if toLowerString f = "resourceid" then mapInsert result "resource_id" v
    else if toLowerString f = "substatus" then mapInsert result "sub_status" v
    else if toLowerString f = "properties.recommendationtype" then
      mapInsert result "recommendation_type" v
    else if toLowerString f = "properties.recommendationcategory" then
      mapInsert result "recommendation_category" v
    else if toLowerString f = "properties.recommendationimpact" then
      mapInsert result "recommendation_impact" v
    else if toLowerString f = "caller" ∨ toLowerString f = "category" ∨
        toLowerString f = "level" ∨ toLowerString f = "status" then
      mapInsert result f v
    else result
  | _, _ => result

/-- Mirrors `flattenMonitorActivityLogAlertCriteria`: a nil input or nil
`AllOf` yields a singleton list holding an empty criteria map; otherwise the
conditions are folded into the result map and wrapped in a singleton list. -/
def flattenMonitorActivityLogAlertCriteria (input : Option AlertRuleAllOfCondition) :
    List (List (String × String)) :=
  match input with
  | none => [[]]
  | some cond =>
    match cond.allOf with
    | none => [[]]
    | some conds => [conds.foldl flattenStep []]

/-- An HTTP response as far as this layer observes it: its status code. -/
structure HttpResponse where
  statusCode : Nat
deriving DecidableEq

/-- Modelled from the spec: `response.WasNotFound` from go-azure-helpers (not
vendored under src/) — the distinguishable "not found" response status. -/
def wasNotFound : Option HttpResponse → Bool
  | some r => decide (r.statusCode = 404)
  | none => false

/-- An error value returned by the SDK client. -/
structure ApiError where
  message : String
deriving DecidableEq

/-- Mirrors the delete-call handling of `resourceMonitorActivityLogAlertDelete`
(after the resource ID has been parsed into `name` and `resourceGroup`): a
Delete error whose response was not-found is swallowed (`nil` return, modelled
as `none`); any other Delete error is wrapped with the alert name and resource
group; a successful Delete returns `nil`. -/
def resourceMonitorActivityLogAlertDelete (name resourceGroup : String)
    (deleteResponse : Option HttpResponse) (deleteError : Option ApiError) : Option String :=
  match deleteError with
  | some err =>
    if wasNotFound deleteResponse then none
    else
      some ("Error deleting activity log alert \"" ++ name ++ "\" (resource group \"" ++
        resourceGroup ++ "\"): " ++ err.message)
  | none => none

/-- Modelled from the spec: the orchestration framework treats a nil return
from the delete hook as success for that operation and removes the resource
from local state. -/
def stateAfterDelete (previousId : String) (deleteReturn : Option String) : String :=
  match deleteReturn with
  | none => ""
  | some _ => previousId

/-- Splitting a slash-free string yields that single component. -/
lemma splitOnSlash_noSlash (c : Str) (h : '/' ∉ c) : splitOnSlash c = [c] := by
  induction c with
  | nil => rfl
  | cons x xs ih =>
    have hx : x ≠ '/' := fun hx => h (hx ▸ List.mem_cons_self x xs)
    have hxs : '/' ∉ xs := fun hm => h (List.mem_cons_of_mem x hm)
    simp only [splitOnSlash, if_neg hx, ih hxs]

/-- Splitting past a slash-free head component peels it off. -/
lemma splitOnSlash_append (a s : Str) (h : '/' ∉ a) :
    splitOnSlash (a ++ '/' :: s) = a :: splitOnSlash s := by
  induction a with
  | nil => simp [splitOnSlash]
  | cons x xs ih =>
    have hx : x ≠ '/' := fun hx => h (hx ▸ List.mem_cons_self x xs)
    have hxs : '/' ∉ xs := fun hm => h (List.mem_cons_of_mem x hm)
    show splitOnSlash (x :: (xs ++ '/' :: s)) = (x :: xs) :: splitOnSlash s
    simp only [splitOnSlash, if_neg hx]
    rw [ih hxs]

/-- Splitting recovers the components of a slash-joined string when no
component contains a slash. -/
lemma splitOnSlash_joinComponents (cs : List Str) (h : ∀ c ∈ cs, '/' ∉ c) (hne : cs ≠ []) :
    splitOnSlash (joinComponents cs) = cs := by
  induction cs with
  | nil => exact absurd rfl hne
  | cons c cs ih =>
    cases cs with
    | nil => exact splitOnSlash_noSlash c (h c (List.mem_cons_self c []))
    | cons d ds =>
      have hc : '/' ∉ c := h c (List.mem_cons_self c _)
      have hrest : ∀ x ∈ d :: ds, '/' ∉ x := fun x hx => h x (List.mem_cons_of_mem c hx)
      simp only [joinComponents, splitOnSlash_append c _ hc, ih hrest (by simp)]

/-- A literal always matches itself. -/
lemma matchStatic_self (insensitively : Bool) (lit : Str) :
    matchStatic insensitively lit lit = true := by
  cases insensitively <;> simp [matchStatic]

/-- A case-sensitive static match fails on any other string. -/
lemma matchStatic_false_of_ne (lit s : Str) (h : s ≠ lit) :
    matchStatic false lit s = false := by
  simp only [matchStatic, if_neg Bool.false_ne_true, decide_eq_false_iff_not]
  exact fun hh => h hh.symm

/-- A case-insensitive match succeeds on any same-lower-casing string. -/
lemma matchStatic_true_of_lower (lit s : Str) (h : lowerStr s = lowerStr lit) :
    matchStatic true lit s = true := by
  simp [matchStatic, h]

/-- Evaluation of the segment walk of a Verifier Workspace ID on matching
components with non-empty dynamic values. -/
lemma parseSegments_verifier (insensitively : Bool)
    (s1 sub s2 rg s3 p s4 nm s5 ws : Str)
    (h1 : matchStatic insensitively "subscriptions".toList s1 = true)
    (h2 : matchStatic insensitively "resourceGroups".toList s2 = true)
    (h3 : matchStatic insensitively "providers".toList s3 = true)
    (hp : matchStatic true "Microsoft.Network".toList p = true)
    (h4 : matchStatic insensitively "networkManagers".toList s4 = true)
    (h5 : matchStatic insensitively "verifierWorkspaces".toList s5 = true)
    (hsub : sub ≠ []) (hrg : rg ≠ []) (hnm : nm ≠ []) (hws : ws ≠ []) :
    parseSegments insensitively verifierWorkspaceSegments
        [s1, sub, s2, rg, s3, p, s4, nm, s5, ws] =
      .ok [("subscriptionId", sub), ("resourceGroupName", rg),
        ("networkManagerName", nm), ("verifierWorkspaceName", ws)] := by
  simp only [verifierWorkspaceSegments, parseSegments, StaticSegment, SubscriptionIdSegment,
    ResourceGroupSegment, ResourceProviderSegment, UserSpecifiedSegment]
  rw [h1, h2, h3, hp, h4, h5]
  simp [hsub, hrg, hnm, hws, Except.map]

/-- Evaluation of the segment walk when the first static literal mismatches. -/
lemma parseSegments_verifier_err1 (insensitively : Bool)
    (s1 sub s2 rg s3 p s4 nm s5 ws : Str)
    (h1 : matchStatic insensitively "subscriptions".toList s1 = false) :
    parseSegments insensitively verifierWorkspaceSegments
        [s1, sub, s2, rg, s3, p, s4, nm, s5, ws] =
      .error (.segmentMismatch "subscriptions".toList s1) := by
  simp only [verifierWorkspaceSegments, parseSegments, StaticSegment, SubscriptionIdSegment,
    ResourceGroupSegment, ResourceProviderSegment, UserSpecifiedSegment]
  rw [h1]
  simp

/-- Evaluation of the segment walk when the second static literal mismatches. -/
lemma parseSegments_verifier_err2 (insensitively : Bool)
    (s1 sub s2 rg s3 p s4 nm s5 ws : Str)
    (h1 : matchStatic insensitively "subscriptions".toList s1 = true)
    (hsub : sub ≠ [])
    (h2 : matchStatic insensitively "resourceGroups".toList s2 = false) :
    parseSegments insensitively verifierWorkspaceSegments
        [s1, sub, s2, rg, s3, p, s4, nm, s5, ws] =
      .error (.segmentMismatch "resourceGroups".toList s2) := by
  simp only [verifierWorkspaceSegments, parseSegments, StaticSegment, SubscriptionIdSegment,
    ResourceGroupSegment, ResourceProviderSegment, UserSpecifiedSegment]
  rw [h1, h2]
  simp [hsub, Except.map]

/-- Evaluation of the segment walk when the third static literal mismatches. -/
lemma parseSegments_verifier_err3 (insensitively : Bool)
    (s1 sub s2 rg s3 p s4 nm s5 ws : Str)
    (h1 : matchStatic insensitively "subscriptions".toList s1 = true)
    (hsub : sub ≠ [])
    (h2 : matchStatic insensitively "resourceGroups".toList s2 = true)
    (hrg : rg ≠ [])
    (h3 : matchStatic insensitively "providers".toList s3 = false) :
    parseSegments insensitively verifierWorkspaceSegments
        [s1, sub, s2, rg, s3, p, s4, nm, s5, ws] =
      .error (.segmentMismatch "providers".toList s3) := by
  simp only [verifierWorkspaceSegments, parseSegments, StaticSegment, SubscriptionIdSegment,
    ResourceGroupSegment, ResourceProviderSegment, UserSpecifiedSegment]
  rw [h1, h2, h3]
  simp [hsub, hrg, Except.map]

/-- Evaluation of the segment walk when the fourth static literal mismatches. -/
lemma parseSegments_verifier_err4 (insensitively : Bool)
    (s1 sub s2 rg s3 p s4 nm s5 ws : Str)
    (h1 : matchStatic insensitively "subscriptions".toList s1 = true)
    (hsub : sub ≠ [])
    (h2 : matchStatic insensitively "resourceGroups".toList s2 = true)
    (hrg : rg ≠ [])
    (h3 : matchStatic insensitively "providers".toList s3 = true)
    (hp : matchStatic true "Microsoft.Network".toList p = true)
    (h4 : matchStatic insensitively "networkManagers".toList s4 = false) :
    parseSegments insensitively verifierWorkspaceSegments
        [s1, sub, s2, rg, s3, p, s4, nm, s5, ws] =
      .error (.segmentMismatch "networkManagers".toList s4) := by
  simp only [verifierWorkspaceSegments, parseSegments, StaticSegment, SubscriptionIdSegment,
    ResourceGroupSegment, ResourceProviderSegment, UserSpecifiedSegment]
  rw [h1, h2, h3, hp, h4]
  simp [hsub, hrg, Except.map]

/-- Evaluation of the segment walk when the fifth static literal mismatches. -/
lemma parseSegments_verifier_err5 (insensitively : Bool)
    (s1 sub s2 rg s3 p s4 nm s5 ws : Str)
    (h1 : matchStatic insensitively "subscriptions".toList s1 = true)
    (hsub : sub ≠ [])
    (h2 : matchStatic insensitively "resourceGroups".toList s2 = true)
    (hrg : rg ≠ [])
    (h3 : matchStatic insensitively "providers".toList s3 = true)
    (hp : matchStatic true "Microsoft.Network".toList p = true)
    (h4 : matchStatic insensitively "networkManagers".toList s4 = true)
    (hnm : nm ≠ [])
    (h5 : matchStatic insensitively "verifierWorkspaces".toList s5 = false) :
    parseSegments insensitively verifierWorkspaceSegments
        [s1, sub, s2, rg, s3, p, s4, nm, s5, ws] =
      .error (.segmentMismatch "verifierWorkspaces".toList s5) := by
  simp only [verifierWorkspaceSegments, parseSegments, StaticSegment, SubscriptionIdSegment,
    ResourceGroupSegment, ResourceProviderSegment, UserSpecifiedSegment]
  rw [h1, h2, h3, hp, h4, h5]
  simp [hsub, hrg, hnm, Except.map]

/-- C1 (amended): for every `VerifierWorkspaceId` whose four fields are
non-empty and contain no slash, formatting with `ID` and re-parsing with
`ParseVerifierWorkspaceID` yields a struct field-for-field equal to the
original. The claim as stated over every struct value fails; see
`roundTrip_fails_on_empty_field`. -/
theorem parse_ID_roundTrip_of_valid_fields (id : VerifierWorkspaceId)
    (hsub : id.SubscriptionId ≠ [] ∧ '/' ∉ id.SubscriptionId)
    (hrg : id.ResourceGroupName ≠ [] ∧ '/' ∉ id.ResourceGroupName)
    (hnm : id.NetworkManagerName ≠ [] ∧ '/' ∉ id.NetworkManagerName)
    (hws : id.VerifierWorkspaceName ≠ [] ∧ '/' ∉ id.VerifierWorkspaceName) :
    ParseVerifierWorkspaceID id.ID = .ok id := by
  have hsplit : splitOnSlash id.ID =
      [[], "subscriptions".toList, id.SubscriptionId, "resourceGroups".toList,
        id.ResourceGroupName, "providers".toList, "Microsoft.Network".toList,
        "networkManagers".toList, id.NetworkManagerName, "verifierWorkspaces".toList,
        id.VerifierWorkspaceName] := by
    apply splitOnSlash_joinComponents
    · intro c hc
      simp only [List.mem_cons, List.not_mem_nil, or_false] at hc
      rcases hc with rfl | rfl | rfl | rfl | rfl | rfl | rfl | rfl | rfl | rfl | rfl
      · exact List.not_mem_nil _
      · decide
      · exact hsub.2
      · decide
      · exact hrg.2
      · decide
      · decide
      · decide
      · exact hnm.2
      · decide
      · exact hws.2
    · simp
  simp only [ParseVerifierWorkspaceID, Parse, hsplit]
  rw [parseSegments_verifier false _ _ _ _ _ _ _ _ _ _
      (matchStatic_self false _) (matchStatic_self false _) (matchStatic_self false _)
      (matchStatic_self true _) (matchStatic_self false _) (matchStatic_self false _)
      hsub.1 hrg.1 hnm.1 hws.1]
  rfl

/-- C1 counterexample: a struct with an empty `ResourceGroupName` formats to a
string whose resource-group component is empty, and re-parsing that string
fails with a "segment not specified" error instead of returning the original
struct — so the round-trip law does not hold for every struct value. -/
theorem roundTrip_fails_on_empty_field :
    ParseVerifierWorkspaceID
        (VerifierWorkspaceId.ID ⟨"sub".toList, [], "mgr1".toList, "ws1".toList⟩) =
      .error (.segmentNotSpecified "resourceGroupName") ∧
    ParseVerifierWorkspaceID
        (VerifierWorkspaceId.ID ⟨"sub".toList, [], "mgr1".toList, "ws1".toList⟩) ≠
      .ok ⟨"sub".toList, [], "mgr1".toList, "ws1".toList⟩ := by
  constructor <;> decide

/-- C1 witness: the round-trip law instantiated at the example identifier. -/
theorem parse_ID_roundTrip_witness :
    ParseVerifierWorkspaceID (VerifierWorkspaceId.ID exampleId) = .ok exampleId :=
  parse_ID_roundTrip_of_valid_fields exampleId ⟨by decide, by decide⟩
    ⟨by decide, by decide⟩ ⟨by decide, by decide⟩ ⟨by decide, by decide⟩

/-- C2: parsing the concrete example identifier string succeeds with the four
expected field values, and formatting that struct reproduces the identical
string. -/
theorem parse_format_concrete_scenario :
    ParseVerifierWorkspaceID exampleIdString = .ok exampleId ∧
    exampleId.ID = exampleIdString ∧
    exampleId = ⟨"12345678-1234-9876-4563-123456789012".toList, "example-resource-group".toList,
      "mgr1".toList, "ws1".toList⟩ := by
  refine ⟨by decide, by decide, rfl⟩

/-- C4: for every well-shaped identifier built from any casing of the static
literals and non-empty slash-free dynamic values, the case-insensitive parser
accepts the string and returns the dynamic values, while the case-sensitive
parser rejects it whenever one of the five static literals is not exactly
cased. (Per the spec, the resource-provider literal `Microsoft.Network` is
matched case-insensitively by both parsers, so it is not among the
case-sensitive literals.) -/
theorem parse_case_sensitivity
    (s1 s2 s3 p s4 s5 sub rg nm ws : Str)
    (h1 : lowerStr s1 = lowerStr "subscriptions".toList ∧ '/' ∉ s1)
    (h2 : lowerStr s2 = lowerStr "resourceGroups".toList ∧ '/' ∉ s2)
    (h3 : lowerStr s3 = lowerStr "providers".toList ∧ '/' ∉ s3)
    (hp : lowerStr p = lowerStr "Microsoft.Network".toList ∧ '/' ∉ p)
    (h4 : lowerStr s4 = lowerStr "networkManagers".toList ∧ '/' ∉ s4)
    (h5 : lowerStr s5 = lowerStr "verifierWorkspaces".toList ∧ '/' ∉ s5)
    (hsub : sub ≠ [] ∧ '/' ∉ sub) (hrg : rg ≠ [] ∧ '/' ∉ rg)
    (hnm : nm ≠ [] ∧ '/' ∉ nm) (hws : ws ≠ [] ∧ '/' ∉ ws) :
    ParseVerifierWorkspaceIDInsensitively
        (joinComponents [[], s1, sub, s2, rg, s3, p, s4, nm, s5, ws]) =
      .ok ⟨sub, rg, nm, ws⟩ ∧
    ((s1 ≠ "subscriptions".toList ∨ s2 ≠ "resourceGroups".toList ∨
        s3 ≠ "providers".toList ∨ s4 ≠ "networkManagers".toList ∨
        s5 ≠ "verifierWorkspaces".toList) →
      ∃ e, ParseVerifierWorkspaceID
          (joinComponents [[], s1, sub, s2, rg, s3, p, s4, nm, s5, ws]) = .error e) := by
  have hsplit : splitOnSlash (joinComponents [[], s1, sub, s2, rg, s3, p, s4, nm, s5, ws]) =
      [[], s1, sub, s2, rg, s3, p, s4, nm, s5, ws] := by
    apply splitOnSlash_joinComponents
    · intro c hc
      simp only [List.mem_cons, List.not_mem_nil, or_false] at hc
      rcases hc with rfl | rfl | rfl | rfl | rfl | rfl | rfl | rfl | rfl | rfl | rfl
      · exact List.not_mem_nil _
      · exact h1.2
      · exact hsub.2
      · exact h2.2
      · exact hrg.2
      · exact h3.2
      · exact hp.2
      · exact h4.2
      · exact hnm.2
      · exact h5.2
      · exact hws.2
    · simp
  constructor
  · simp only [ParseVerifierWorkspaceIDInsensitively, Parse, hsplit]
    rw [parseSegments_verifier true _ _ _ _ _ _ _ _ _ _
        (matchStatic_true_of_lower _ _ h1.1) (matchStatic_true_of_lower _ _ h2.1)
        (matchStatic_true_of_lower _ _ h3.1) (matchStatic_true_of_lower _ _ hp.1)
        (matchStatic_true_of_lower _ _ h4.1) (matchStatic_true_of_lower _ _ h5.1)
        hsub.1 hrg.1 hnm.1 hws.1]
    rfl
  · intro hbad
    simp only [ParseVerifierWorkspaceID, Parse, hsplit]
    by_cases e1 : s1 = "subscriptions".toList
    case neg =>
      rw [parseSegments_verifier_err1 false _ _ _ _ _ _ _ _ _ _
          (matchStatic_false_of_ne _ _ e1)]
      exact ⟨_, rfl⟩
    case pos =>
    subst e1
    by_cases e2 : s2 = "resourceGroups".toList
    case neg =>
      rw [parseSegments_verifier_err2 false _ _ _ _ _ _ _ _ _ _
          (matchStatic_self false _) hsub.1 (matchStatic_false_of_ne _ _ e2)]
      exact ⟨_, rfl⟩
    case pos =>
    subst e2
    by_cases e3 : s3 = "providers".toList
    case neg =>
      rw [parseSegments_verifier_err3 false _ _ _ _ _ _ _ _ _ _
          (matchStatic_self false _) hsub.1 (matchStatic_self false _) hrg.1
          (matchStatic_false_of_ne _ _ e3)]
      exact ⟨_, rfl⟩
    case pos =>
    subst e3
    by_cases e4 : s4 = "networkManagers".toList
    case neg =>
      rw [parseSegments_verifier_err4 false _ _ _ _ _ _ _ _ _ _
          (matchStatic_self false _) hsub.1 (matchStatic_self false _) hrg.1
          (matchStatic_self false _) (matchStatic_true_of_lower _ _ hp.1)
          (matchStatic_false_of_ne _ _ e4)]
      exact ⟨_, rfl⟩
    case pos =>
    subst e4
    by_cases e5 : s5 = "verifierWorkspaces".toList
    case neg =>
      rw [parseSegments_verifier_err5 false _ _ _ _ _ _ _ _ _ _
          (matchStatic_self false _) hsub.1 (matchStatic_self false _) hrg.1
          (matchStatic_self false _) (matchStatic_true_of_lower _ _ hp.1)
          (matchStatic_self false _) hnm.1 (matchStatic_false_of_ne _ _ e5)]
      exact ⟨_, rfl⟩
    case pos =>
    subst e5
    rcases hbad with h | h | h | h | h <;> exact absurd rfl h

/-- C4 witness: with `SUBSCRIPTIONS` and `resourcegroups` wrongly cased, the
insensitive parser accepts the string and the sensitive parser rejects it. -/
theorem parse_case_sensitivity_witness :
    ParseVerifierWorkspaceIDInsensitively
        (joinComponents [[], "SUBSCRIPTIONS".toList, "abc".toList, "resourcegroups".toList,
          "rg".toList, "providers".toList, "Microsoft.Network".toList,
          "networkManagers".toList, "nm".toList, "verifierWorkspaces".toList, "ws".toList]) =
      .ok ⟨"abc".toList, "rg".toList, "nm".toList, "ws".toList⟩ ∧
    ∃ e, ParseVerifierWorkspaceID
        (joinComponents [[], "SUBSCRIPTIONS".toList, "abc".toList, "resourcegroups".toList,
          "rg".toList, "providers".toList, "Microsoft.Network".toList,
          "networkManagers".toList, "nm".toList, "verifierWorkspaces".toList, "ws".toList]) =
      .error e := by
  have h := parse_case_sensitivity "SUBSCRIPTIONS".toList "resourcegroups".toList
    "providers".toList "Microsoft.Network".toList "networkManagers".toList
    "verifierWorkspaces".toList "abc".toList "rg".toList "nm".toList "ws".toList
    ⟨by decide, by decide⟩ ⟨by decide, by decide⟩ ⟨by decide, by decide⟩
    ⟨by decide, by decide⟩ ⟨by decide, by decide⟩ ⟨by decide, by decide⟩
    ⟨by decide, by decide⟩ ⟨by decide, by decide⟩ ⟨by decide, by decide⟩
    ⟨by decide, by decide⟩
  exact ⟨h.1, h.2 (Or.inl (by decide))⟩

/-- C3: if any of the four non-static keys is missing from a parse result,
`FromParseResult` fails with a "segment not specified" error naming a missing
key; and whenever it succeeds, the returned struct carries the looked-up value
of every one of the four keys (all-or-nothing: the `Except` result is either a
named error or a fully populated struct). -/
theorem fromParseResult_all_or_nothing (pr : ParseResult) :
    ((∃ k ∈ verifierWorkspaceKeys, pr.parsed.lookup k = none) →
      ∃ k ∈ verifierWorkspaceKeys, pr.parsed.lookup k = none ∧
        VerifierWorkspaceId.FromParseResult pr = .error (.segmentNotSpecified k)) ∧
    (∀ id, VerifierWorkspaceId.FromParseResult pr = .ok id →
      pr.parsed.lookup "subscriptionId" = some id.SubscriptionId ∧
      pr.parsed.lookup "resourceGroupName" = some id.ResourceGroupName ∧
      pr.parsed.lookup "networkManagerName" = some id.NetworkManagerName ∧
      pr.parsed.lookup "verifierWorkspaceName" = some id.VerifierWorkspaceName) := by
  rcases hs : pr.parsed.lookup "subscriptionId" with _ | sub
  · refine ⟨fun _ => ⟨"subscriptionId", by simp [verifierWorkspaceKeys], hs, ?_⟩,
      fun id hid => ?_⟩
    · simp [VerifierWorkspaceId.FromParseResult, hs]
    · simp [VerifierWorkspaceId.FromParseResult, hs] at hid
  rcases hr : pr.parsed.lookup "resourceGroupName" with _ | rg
  · refine ⟨fun _ => ⟨"resourceGroupName", by simp [verifierWorkspaceKeys], hr, ?_⟩,
      fun id hid => ?_⟩
    · simp [VerifierWorkspaceId.FromParseResult, hs, hr]
    · simp [VerifierWorkspaceId.FromParseResult, hs, hr] at hid
  rcases hn : pr.parsed.lookup "networkManagerName" with _ | nm
  · refine ⟨fun _ => ⟨"networkManagerName", by simp [verifierWorkspaceKeys], hn, ?_⟩,
      fun id hid => ?_⟩
    · simp [VerifierWorkspaceId.FromParseResult, hs, hr, hn]
    · simp [VerifierWorkspaceId.FromParseResult, hs, hr, hn] at hid
  rcases hw : pr.parsed.lookup "verifierWorkspaceName" with _ | ws
  · refine ⟨fun _ => ⟨"verifierWorkspaceName", by simp [verifierWorkspaceKeys], hw, ?_⟩,
      fun id hid => ?_⟩
    · simp [VerifierWorkspaceId.FromParseResult, hs, hr, hn, hw]
    · simp [VerifierWorkspaceId.FromParseResult, hs, hr, hn, hw] at hid
  refine ⟨fun hmiss => ?_, fun id hid => ?_⟩
  · exfalso
    rcases hmiss with ⟨k, hk, hnone⟩
    simp only [verifierWorkspaceKeys, List.mem_cons, List.not_mem_nil, or_false] at hk
    rcases hk with rfl | rfl | rfl | rfl <;> simp_all
  · rcases id with ⟨a, b, c, d⟩
    simp only [VerifierWorkspaceId.FromParseResult, hs, hr, hn, hw, Except.ok.injEq,
      VerifierWorkspaceId.mk.injEq] at hid
    obtain ⟨rfl, rfl, rfl, rfl⟩ := hid
    simp_all

/-- C3 witness: a parse result holding only `subscriptionId` makes
`FromParseResult` fail naming a missing key. -/
theorem fromParseResult_all_or_nothing_witness :
    ∃ k ∈ verifierWorkspaceKeys,
      (ParseResult.mk [("subscriptionId", "abc".toList)]).parsed.lookup k = none ∧
        VerifierWorkspaceId.FromParseResult (ParseResult.mk [("subscriptionId", "abc".toList)]) =
          .error (.segmentNotSpecified k) :=
  (fromParseResult_all_or_nothing (ParseResult.mk [("subscriptionId", "abc".toList)])).1
    ⟨"resourceGroupName", by decide, by decide⟩

/-- C5: the validation adapter never emits warnings; its error list is empty
exactly when the input is a string that parses as a Verifier Workspace ID
(so non-strings and unparsable strings yield a non-empty error list); and in
particular the empty string yields a non-empty error list. -/
theorem validate_errors_iff_parse (input : GoValue) (key : String) :
    (ValidateVerifierWorkspaceID input key).1 = [] ∧
    ((ValidateVerifierWorkspaceID input key).2 = [] ↔
      ∃ v id, input = .str v ∧ ParseVerifierWorkspaceID v = .ok id) ∧
    (ValidateVerifierWorkspaceID (.str "".toList) key).2 ≠ [] := by
  refine ⟨?_, ?_, ?_⟩
  · cases input with
    | nonString => rfl
    | str v => simp only [ValidateVerifierWorkspaceID]; rcases ParseVerifierWorkspaceID v <;> rfl
  · cases input with
    | nonString =>
      simp [ValidateVerifierWorkspaceID]
    | str v =>
      rcases hv : ParseVerifierWorkspaceID v with e | id
      · simp only [ValidateVerifierWorkspaceID, hv]
        constructor
        · intro h; exact absurd h (by simp)
        · rintro ⟨v2, id2, heq, hok⟩
          cases heq
          rw [hv] at hok
          exact absurd hok (by simp)
      · simp only [ValidateVerifierWorkspaceID, hv]
        exact ⟨fun _ => ⟨v, id, rfl, hv⟩, fun _ => trivial⟩
  · have hempty : ParseVerifierWorkspaceID [] = .error .wrongNumberOfComponents := by decide
    simp [ValidateVerifierWorkspaceID, hempty]

/-- C5 witness: the well-formed example identifier validates with no warnings
and no errors, and the empty string yields a non-empty error list. -/
theorem validate_errors_iff_parse_witness :
    (ValidateVerifierWorkspaceID (.str exampleIdString) "test").1 = [] ∧
    (ValidateVerifierWorkspaceID (.str exampleIdString) "test").2 = [] ∧
    (ValidateVerifierWorkspaceID (.str "".toList) "test").2 ≠ [] :=
  ⟨(validate_errors_iff_parse (.str exampleIdString) "test").1,
    (validate_errors_iff_parse (.str exampleIdString) "test").2.1.mpr
      ⟨exampleIdString, exampleId, rfl, by decide⟩,
    (validate_errors_iff_parse (.str exampleIdString) "test").2.2⟩

/-- C6: expand produces exactly one condition per criteria field whose value
is non-empty — the output condition list is the filter-map of the ordered
field/value pairs keeping the non-empty ones — and on the concrete input with
`category` set to `Administrative` and every other field empty it produces
exactly the single category condition. -/
theorem expand_one_condition_per_nonempty_field :
    (∀ v rest, expandMonitorActivityLogAlertCriteria (v :: rest) =
      some ⟨some ((criteriaPairs v).filterMap fun p =>
        if p.2 = "" then none else some (⟨some p.1, some p.2⟩ : Condition))⟩) ∧
    expandMonitorActivityLogAlertCriteria
        [⟨"Administrative", "", "", "", "", "", "", "", "", "", "", "", ""⟩] =
      some ⟨some [⟨some "category", some "Administrative"⟩]⟩ := by
  constructor
  · intro v rest
    have hstep : ∀ (n val : String) (ps : List (String × String)),
        List.filterMap
            (fun p => if p.2 = "" then none else some (⟨some p.1, some p.2⟩ : Condition))
            ((n, val) :: ps) =
          emitCondition n val ++
            List.filterMap
              (fun p => if p.2 = "" then none else some (⟨some p.1, some p.2⟩ : Condition))
              ps := by
      intro n val ps
      by_cases h : val = "" <;> simp [List.filterMap_cons, emitCondition, h]
    simp [expandMonitorActivityLogAlertCriteria, criteriaPairs, hstep]
  · decide

/-- C10: expand reads `input[0]` unconditionally, so it is total exactly on
non-empty input lists (the typed embedding supplies a string for every
criteria key): an empty list is the modelled panic (`none`), and any
non-empty list reaches no failure branch. -/
theorem expand_requires_nonempty_input :
    expandMonitorActivityLogAlertCriteria [] = none ∧
    ∀ v rest, (expandMonitorActivityLogAlertCriteria (v :: rest)).isSome = true :=
  ⟨rfl, fun _ _ => rfl⟩

/-- C7: flattening a response holding only a `category`/`Administrative`
condition reproduces the criteria map with exactly that entry and every other
recognized field absent; and field names are matched against the recognized
keys case-insensitively (shown for the `operationName` and `resourceProvider`
lookups the spec singles out). -/
theorem flatten_category_concrete :
    flattenMonitorActivityLogAlertCriteria
        (some ⟨some [⟨some "category", some "Administrative"⟩]⟩) =
      [[("category", "Administrative")]] ∧
    (∀ f v, toLowerString f = "operationname" →
      flattenMonitorActivityLogAlertCriteria (some ⟨some [⟨some f, some v⟩]⟩) =
        [[("operation_name", v)]]) ∧
    (∀ f v, toLowerString f = "resourceprovider" →
      flattenMonitorActivityLogAlertCriteria (some ⟨some [⟨some f, some v⟩]⟩) =
        [[("resource_provider", v)]]) := by
  refine ⟨by decide, ?_, ?_⟩
  · intro f v h
    simp [flattenMonitorActivityLogAlertCriteria, flattenStep, h, mapInsert]
  · intro f v h
    simp [flattenMonitorActivityLogAlertCriteria, flattenStep, h, mapInsert]

/-- C7 witness: a differently cased `OperationName` condition is matched
case-insensitively and stored under `operation_name`. -/
theorem flatten_category_concrete_witness :
    flattenMonitorActivityLogAlertCriteria
        (some ⟨some [⟨some "OperationName", some "Create"⟩]⟩) =
      [[("operation_name", "Create")]] :=
  flatten_category_concrete.2.1 "OperationName" "Create" (by decide)

/-- C9: a condition whose field lower-cases to `caller`, `category`, `level`
or `status` is stored under the field string's original casing (e.g. a
`Category` condition yields the key `Category`), whereas every other
recognized field is stored under its fixed snake_case configuration key. -/
theorem flatten_original_casing :
    (∀ f v, (toLowerString f = "caller" ∨ toLowerString f = "category" ∨
        toLowerString f = "level" ∨ toLowerString f = "status") →
      flattenMonitorActivityLogAlertCriteria (some ⟨some [⟨some f, some v⟩]⟩) =
        [[(f, v)]]) ∧
    flattenMonitorActivityLogAlertCriteria
        (some ⟨some [⟨some "Category", some "Administrative"⟩]⟩) =
      [[("Category", "Administrative")]] ∧
    (∀ f v, toLowerString f = "operationname" →
      flattenMonitorActivityLogAlertCriteria (some ⟨some [⟨some f, some v⟩]⟩) =
        [[("operation_name", v)]]) ∧
    (∀ f v, toLowerString f = "resourceprovider" →
      flattenMonitorActivityLogAlertCriteria (some ⟨some [⟨some f, some v⟩]⟩) =
        [[("resource_provider", v)]]) ∧
    (∀ f v, toLowerString f = "resourcetype" →
      flattenMonitorActivityLogAlertCriteria (some ⟨some [⟨some f, some v⟩]⟩) =
        [[("resource_type", v)]]) ∧
    (∀ f v, toLowerString f = "resourcegroup" →
      flattenMonitorActivityLogAlertCriteria (some ⟨some [⟨some f, some v⟩]⟩) =
        [[("resource_group", v)]]) ∧
    (∀ f v, toLowerString f = "resourceid" →
      flattenMonitorActivityLogAlertCriteria (some ⟨some [⟨some f, some v⟩]⟩) =
        [[("resource_id", v)]]) ∧
    (∀ f v, toLowerString f = "substatus" →
      flattenMonitorActivityLogAlertCriteria (some ⟨some [⟨some f, some v⟩]⟩) =
        [[("sub_status", v)]]) ∧
    (∀ f v, toLowerString f = "properties.recommendationtype" →
      flattenMonitorActivityLogAlertCriteria (some ⟨some [⟨some f, some v⟩]⟩) =
        [[("recommendation_type", v)]]) ∧
    (∀ f v, toLowerString f = "properties.recommendationcategory" →
      flattenMonitorActivityLogAlertCriteria (some ⟨some [⟨some f, some v⟩]⟩) =
        [[("recommendation_category", v)]]) ∧
    (∀ f v, toLowerString f = "properties.recommendationimpact" →
      flattenMonitorActivityLogAlertCriteria (some ⟨some [⟨some f, some v⟩]⟩) =
        [[("recommendation_impact", v)]]) := by
  refine ⟨?_, by decide, ?_, ?_, ?_, ?_, ?_, ?_, ?_, ?_, ?_⟩
  · intro f v h
    rcases h with h | h | h | h <;>
      simp [flattenMonitorActivityLogAlertCriteria, flattenStep, h, mapInsert]
  all_goals
    intro f v h
    simp [flattenMonitorActivityLogAlertCriteria, flattenStep, h, mapInsert]

/-- C9 witness: an upper-cased `LEVEL` condition keeps its original casing as
the stored key. -/
theorem flatten_original_casing_witness :
    flattenMonitorActivityLogAlertCriteria
        (some ⟨some [⟨some "LEVEL", some "Critical"⟩]⟩) =
      [[("LEVEL", "Critical")]] :=
  flatten_original_casing.1 "LEVEL" "Critical" (Or.inr (Or.inr (Or.inl (by decide))))

/-- C8: a Delete error whose response was not-found makes the delete handler
return nil (modelled `none`) and the framework clears local state; any other
Delete error is returned wrapped with the alert name and resource group; a
successful Delete also returns nil. -/
theorem delete_notFound_silent_success (name resourceGroup previousId : String)
    (resp : Option HttpResponse) (err : ApiError) :
    (wasNotFound resp = true →
      resourceMonitorActivityLogAlertDelete name resourceGroup resp (some err) = none ∧
      stateAfterDelete previousId
        (resourceMonitorActivityLogAlertDelete name resourceGroup resp (some err)) = "") ∧
    (wasNotFound resp = false →
      resourceMonitorActivityLogAlertDelete name resourceGroup resp (some err) =
        some ("Error deleting activity log alert \"" ++ name ++ "\" (resource group \"" ++
          resourceGroup ++ "\"): " ++ err.message)) ∧
    resourceMonitorActivityLogAlertDelete name resourceGroup resp none = none := by
  refine ⟨fun h => ?_, fun h => ?_, rfl⟩
  · constructor <;> simp [resourceMonitorActivityLogAlertDelete, h, stateAfterDelete]
  · simp [resourceMonitorActivityLogAlertDelete, h]

/-- C8 witness: deleting an already-deleted alert (404 response) returns nil
and clears the stored ID. -/
theorem delete_notFound_silent_success_witness :
    resourceMonitorActivityLogAlertDelete "alert1" "rg1" (some ⟨404⟩) (some ⟨"gone"⟩) = none ∧
    stateAfterDelete "previous-id"
      (resourceMonitorActivityLogAlertDelete "alert1" "rg1" (some ⟨404⟩) (some ⟨"gone"⟩)) = "" :=
  ⟨((delete_notFound_silent_success "alert1" "rg1" "previous-id" (some ⟨404⟩) ⟨"gone"⟩).1
      (by decide)).1,
    ((delete_notFound_silent_success "alert1" "rg1" "previous-id" (some ⟨404⟩) ⟨"gone"⟩).1
      (by decide)).2⟩
